import Mathlib

/-!
Verification of the ai-waste-sorter repository.

The repository consists of a `WasteCategory` string enum (types.ts), an
async function `classifyWasteImage` (geminiService.ts) that sends an image
to a vendor API and normalizes the response text into a category, and a
React component `App` (App.tsx) holding the UI state.

Shallow embedding choices:
  * `classifyWasteImage` becomes a pure function.  Its interaction with the
    environment is made explicit by two extra parameters: whether the
    API key is configured (the truthiness of `process.env.API_KEY`), and
    the outcome of the vendor call, an `Except ThrownError String` which is
    either the response text or the thrown error.  The function also
    returns the list of external effects it performed, so that claims
    about the number of network calls can be stated.
  * JavaScript string operations (`trim`, `toLowerCase`, `includes`,
    `startsWith`) are modelled on Lean `String`s; `includes` is a
    character-level substring test defined below.
  * The `App` component's `useState` hooks become an `AppState` record and
    each handler becomes a state-transition function.  `handleClassify` is
    split in two: `handleClassifyStart` is the synchronous prefix up to and
    including `setIsLoading(true)`, and `handleClassifyFinish` is the
    awaited remainder together with the `finally` block.  The outcome of
    the `FileReader` base64 conversion is a further `Except` parameter.
-/

namespace AIWasteSorter

/-- The `WasteCategory` string enum from types.ts. -/
inductive WasteCategory where
  | PLASTIC
  | PAPER
  | CARDBOARD
  | GLASS
  | METAL
  | UNKNOWN
deriving DecidableEq, Repr

/-- The string value of each enum member. -/
def WasteCategory.label : WasteCategory → String
  | .PLASTIC => "Plastic"
  | .PAPER => "Paper"
  | .CARDBOARD => "Cardboard"
  | .GLASS => "Glass"
  | .METAL => "Metal"
  | .UNKNOWN => "Unknown"

/-- `Object.values(WasteCategory)` in declaration order. -/
def wasteCategoryValues : List WasteCategory :=
  [.PLASTIC, .PAPER, .CARDBOARD, .GLASS, .METAL, .UNKNOWN]

/-- JavaScript `toLowerCase` at character level (ASCII range, which covers
every character the code compares against). -/
def jsCharToLower (c : Char) : Char :=
  if 65 ≤ c.toNat ∧ c.toNat ≤ 90 then Char.ofNat (c.toNat + 32) else c

/-- JavaScript `s.toLowerCase()`. -/
def jsToLower (s : String) : String :=
  String.mk (s.data.map jsCharToLower)

/-- Drop leading whitespace characters. -/
def dropLeadingWs : List Char → List Char
  | [] => []
  | c :: cs => if c.isWhitespace then dropLeadingWs cs else c :: cs

/-- JavaScript `s.trim()`: strip whitespace from both ends. -/
def jsTrim (s : String) : String :=
  String.mk (dropLeadingWs (dropLeadingWs s.data.reverse).reverse)

/-- Does the character list `pat` occur at the head of `cs`? -/
def charsStartWith : List Char → List Char → Bool
  | [], _ => true
  | _ :: _, [] => false
  | p :: ps, c :: cs => p == c && charsStartWith ps cs

/-- Does the character list `pat` occur anywhere inside `cs`? -/
def charsHasSub (pat : List Char) : List Char → Bool
  | [] => charsStartWith pat []
  | c :: rest => charsStartWith pat (c :: rest) || charsHasSub pat rest

/-- JavaScript `s.includes(pat)`: substring test at character level. -/
def strHasSub (s pat : String) : Bool :=
  charsHasSub pat.data s.data

/-- JavaScript `s.startsWith(pat)`. -/
def jsStartsWith (s pat : String) : Bool :=
  charsStartWith pat.data s.data

/-- JavaScript truthiness of an optional string: `undefined` and the empty
string are falsy, every other string is truthy. -/
def jsTruthy : Option String → Bool
  | none => false
  | some s => !(s == "")

/-- A JavaScript value thrown by the vendor call, as far as
`classifyWasteImage`'s catch block inspects it: whether it is an
`instanceof Error`, whether it is a non-null object with a `message`
property, and that message. -/
structure ThrownError where
  isErrorInstance : Bool
  isObjectWithMessage : Bool
  message : String
deriving DecidableEq, Repr

/-- The error-message derivation in the catch block of
`classifyWasteImage` (geminiService.ts lines 58-70). -/
def errorMessageOf (error : ThrownError) : String :=
  let errorMessage := "Failed to classify image due to an API error."
  let errorMessage := if error.isErrorInstance then error.message else errorMessage
  if error.isObjectWithMessage && strHasSub error.message "API key not valid" then
    "Invalid API Key. Please check your configuration."
  else
    errorMessage

/-- The promised value of `classifyWasteImage`:
`{ category: WasteCategory; error?: string }`. -/
structure ClassifyResult where
  category : WasteCategory
  error : Option String
deriving DecidableEq, Repr

/-- An observable external effect of one classification attempt. -/
inductive Effect where
  | fileRead
  | apiCall
deriving DecidableEq, Repr

instance : BEq Effect := ⟨fun a b => decide (a = b)⟩

/-- Response-text normalization (geminiService.ts lines 43-57): exact match
of the trimmed text against `Object.values(WasteCategory)`, else a
case-insensitive keyword search in a fixed order, else Unknown with an
error message.  The argument is already trimmed by the caller. -/
def normalizeClassification (classificationText : String) : ClassifyResult :=
  match wasteCategoryValues.find? (fun c => c.label == classificationText) with
  | some c => { category := c, error := none }
  | none =>
    if strHasSub (jsToLower classificationText) "plastic" then
      { category := WasteCategory.PLASTIC, error := none }
    else if strHasSub (jsToLower classificationText) "paper" then
      { category := WasteCategory.PAPER, error := none }
    else if strHasSub (jsToLower classificationText) "cardboard" then
      { category := WasteCategory.CARDBOARD, error := none }
    else if strHasSub (jsToLower classificationText) "glass" then
      { category := WasteCategory.GLASS, error := none }
    else if strHasSub (jsToLower classificationText) "metal" then
      { category := WasteCategory.METAL, error := none }
    else
      { category := WasteCategory.UNKNOWN,
        error := some ("Unexpected category: " ++ classificationText) }

/-- `classifyWasteImage` (geminiService.ts lines 20-71).  `apiKeyConfigured`
is the truthiness of `API_KEY`; `apiOutcome` is the resolution of the
vendor call.  Returns the result together with the list of effects the
call performed. -/
def classifyWasteImage (apiKeyConfigured : Bool) (imageBase64 mimeType : String)
    (apiOutcome : Except ThrownError String) : ClassifyResult × List Effect :=
  if !apiKeyConfigured then
    ({ category := WasteCategory.UNKNOWN, error := some "API Key not configured." }, [])
  else
    match apiOutcome with
    | Except.ok responseText =>
      (normalizeClassification (jsTrim responseText), [Effect.apiCall])
    | Except.error e =>
      ({ category := WasteCategory.UNKNOWN, error := some (errorMessageOf e) },
       [Effect.apiCall])

/-- The slice of a browser `File` object the App inspects: its MIME type
(`file.type`) and the data URL that `readAsDataURL` produces for it. -/
structure FileModel where
  type : String
  dataUrl : String
deriving DecidableEq, Repr

/-- The six `useState` hooks of the `App` component (App.tsx lines 74-79). -/
structure AppState where
  selectedFile : Option FileModel
  imageBase64Preview : Option String
  mimeType : Option String
  classificationResult : Option WasteCategory
  isLoading : Bool
  error : Option String
deriving DecidableEq, Repr

/-- The initial values of the six hooks. -/
def initialAppState : AppState :=
  { selectedFile := none, imageBase64Preview := none, mimeType := none,
    classificationResult := none, isLoading := false, error := none }

/-- `handleFileChange` (App.tsx lines 81-105).  The argument is
`event.target.files?.[0]`.  The preview that `reader.onloadend` sets
asynchronously for a valid image is applied here directly. -/
def handleFileChange (s : AppState) (file : Option FileModel) : AppState :=
  let s := { s with error := none, classificationResult := none }
  match file with
  | some f =>
    if !(jsStartsWith f.type "image/") then
      { s with error := some "Please upload a valid image file (PNG, JPG, GIF, WEBP, etc.).",
               selectedFile := none, imageBase64Preview := none, mimeType := none }
    else
      { s with selectedFile := some f, mimeType := some f.type,
               imageBase64Preview := some f.dataUrl }
  | none =>
    { s with selectedFile := none, imageBase64Preview := none, mimeType := none }

/-- `handleRemoveImage` (App.tsx lines 136-146), state part. -/
def handleRemoveImage (s : AppState) : AppState :=
  { s with selectedFile := none, imageBase64Preview := none, mimeType := none,
           classificationResult := none, error := none }

/-- The guard of `handleClassify` (App.tsx line 108): a request is started
exactly when both `selectedFile` and `mimeType` are set. -/
def classifyStarted (s : AppState) : Bool :=
  !(s.selectedFile.isNone || s.mimeType.isNone)

/-- The synchronous prefix of `handleClassify` (App.tsx lines 108-115):
either the guard fails and an error is set, or the loading state is set
and previous error and result are cleared. -/
def handleClassifyStart (s : AppState) : AppState :=
  if s.selectedFile.isNone || s.mimeType.isNone then
    { s with error := some "Please select an image file first." }
  else
    { s with isLoading := true, error := none, classificationResult := none }

/-- The awaited remainder of `handleClassify` plus its `finally` block
(App.tsx lines 117-133), run from the state `handleClassifyStart`
produced.  `fileReadOutcome` is the resolution of `imageToBase64`; a
rejection lands in the catch block.  The branch on `result.error` at
line 121 is a JavaScript truthiness test, so an empty error string takes
the else branch.  Effects performed are returned. -/
def handleClassifyFinish (s : AppState) (apiKeyConfigured : Bool)
    (fileReadOutcome apiOutcome : Except ThrownError String) :
    AppState × List Effect :=
  match fileReadOutcome with
  | Except.error _ =>
    ({ s with error := some "An unexpected error occurred during classification.",
              classificationResult := some WasteCategory.UNKNOWN, isLoading := false },
     [Effect.fileRead])
  | Except.ok base64Data =>
    match classifyWasteImage apiKeyConfigured base64Data (s.mimeType.getD "") apiOutcome with
    | (result, effects) =>
      if jsTruthy result.error then
        ({ s with error := result.error, classificationResult := some WasteCategory.UNKNOWN,
                  isLoading := false },
         Effect.fileRead :: effects)
      else
        ({ s with classificationResult := some result.category, isLoading := false },
         Effect.fileRead :: effects)

/-- One whole run of `handleClassify` (App.tsx lines 107-134). -/
def handleClassify (s : AppState) (apiKeyConfigured : Bool)
    (fileReadOutcome apiOutcome : Except ThrownError String) :
    AppState × List Effect :=
  if classifyStarted s then
    handleClassifyFinish (handleClassifyStart s) apiKeyConfigured fileReadOutcome apiOutcome
  else
    (handleClassifyStart s, [])

/-- The render condition of the Classify button (App.tsx line 195):
`selectedFile && !isLoading`. -/
def classifyButtonRendered (s : AppState) : Bool :=
  s.selectedFile.isSome && !s.isLoading

/-- The spec's description of the normalization, stated independently of
the source: exact-match the text against the known category labels; if no
exact match, try the keywords plastic, paper, cardboard, glass, metal in
that fixed order, case-insensitively, first found wins; else Unknown. -/
def specKeywordTable : List (String × WasteCategory) :=
  [("plastic", WasteCategory.PLASTIC), ("paper", WasteCategory.PAPER),
   ("cardboard", WasteCategory.CARDBOARD), ("glass", WasteCategory.GLASS),
   ("metal", WasteCategory.METAL)]

/-- The category the spec's words assign to a (trimmed) response text. -/
def specNormalizedCategory (t : String) : WasteCategory :=
  match wasteCategoryValues.find? (fun c => c.label == t) with
  | some c => c
  | none =>
    match specKeywordTable.find? (fun p => strHasSub (jsToLower t) p.1) with
    | some p => p.2
    | none => WasteCategory.UNKNOWN

/-! ### Sample inputs used by witnesses -/

/-- A valid image file as `handleFileChange` would accept it. -/
def sampleFile : FileModel :=
  { type := "image/png", dataUrl := "data:image/png;base64,QUJD" }

/-- The App state after a valid image has been selected. -/
def sampleReadyState : AppState :=
  { initialAppState with selectedFile := some sampleFile,
                         imageBase64Preview := some sampleFile.dataUrl,
                         mimeType := some "image/png" }

/-- A thrown vendor-call error. -/
def sampleError : ThrownError :=
  { isErrorInstance := true, isObjectWithMessage := true, message := "network down" }

/-! ### Helper lemmas -/

/-- Every category's label is one of the six known strings. -/
theorem label_mem_knownLabels (c : WasteCategory) :
    c.label ∈ ["Plastic", "Paper", "Cardboard", "Glass", "Metal", "Unknown"] := by
  cases c <;> simp [WasteCategory.label]

/-- Every branch of the normalization either carries no error or lands on
Unknown. -/
theorem normalize_error_none_or_unknown (t : String) :
    (normalizeClassification t).error = none ∨
      (normalizeClassification t).category = WasteCategory.UNKNOWN := by
  unfold normalizeClassification
  split
  · exact Or.inl rfl
  · split
    · exact Or.inl rfl
    · split
      · exact Or.inl rfl
      · split
        · exact Or.inl rfl
        · split
          · exact Or.inl rfl
          · split
            · exact Or.inl rfl
            · exact Or.inr rfl

/-- The source normalization computes the category the spec describes. -/
theorem normalizeClassification_eq_spec (t : String) :
    (normalizeClassification t).category = specNormalizedCategory t := by
  unfold normalizeClassification specNormalizedCategory
  cases hf : wasteCategoryValues.find? (fun c => c.label == t) with
  | some c => simp
  | none =>
    simp only [specKeywordTable]
    by_cases h1 : strHasSub (jsToLower t) "plastic"
    · simp [List.find?, h1]
    · by_cases h2 : strHasSub (jsToLower t) "paper"
      · simp [List.find?, h1, h2]
      · by_cases h3 : strHasSub (jsToLower t) "cardboard"
        · simp [List.find?, h1, h2, h3]
        · by_cases h4 : strHasSub (jsToLower t) "glass"
          · simp [List.find?, h1, h2, h3, h4]
          · by_cases h5 : strHasSub (jsToLower t) "metal"
            · simp [List.find?, h1, h2, h3, h4, h5]
            · simp [List.find?, h1, h2, h3, h4, h5]

/-- The effects of one `classifyWasteImage` call: one API call when the key
is configured, none otherwise. -/
theorem classify_effects (k : Bool) (b m : String) (ao : Except ThrownError String) :
    (classifyWasteImage k b m ao).2 = if k then [Effect.apiCall] else [] := by
  cases k <;> cases ao <;> rfl

/-- The effects of the awaited part of `handleClassify`: one file read,
then whatever the classify call performs when the read succeeds. -/
theorem finish_effects (s : AppState) (k : Bool) (fr ao : Except ThrownError String) :
    (handleClassifyFinish s k fr ao).2 =
      match fr with
      | Except.error _ => [Effect.fileRead]
      | Except.ok b => Effect.fileRead :: (classifyWasteImage k b (s.mimeType.getD "") ao).2 := by
  cases fr with
  | error e => rfl
  | ok b =>
    simp only [handleClassifyFinish]
    split <;> rfl

/-! ### Claim theorems -/

/-- C1: for every model response text, `classifyWasteImage` normalizes it
by first exact-matching the trimmed text against the known category
labels, and only on no exact match falling back to a case-insensitive
substring search for the keywords plastic, paper, cardboard, glass, metal
in that fixed order, the first keyword found winning. -/
theorem classify_normalization_matches_spec (imageBase64 mimeType responseText : String) :
    ((classifyWasteImage true imageBase64 mimeType (Except.ok responseText)).1).category =
      specNormalizedCategory (jsTrim responseText) :=
  normalizeClassification_eq_spec (jsTrim responseText)

/-- C2: for every input, the category of the value `classifyWasteImage`
returns is one of the six known strings Plastic, Paper, Cardboard, Glass,
Metal, Unknown. -/
theorem classify_category_always_known (apiKeyConfigured : Bool)
    (imageBase64 mimeType : String) (apiOutcome : Except ThrownError String) :
    ((classifyWasteImage apiKeyConfigured imageBase64 mimeType apiOutcome).1).category.label ∈
      ["Plastic", "Paper", "Cardboard", "Glass", "Metal", "Unknown"] :=
  label_mem_knownLabels _

/-- C3, counterexample to the claim as stated: a thrown `Error` whose own
message is empty derives the error message "", which is falsy in
JavaScript, so `if (result.error)` takes the else branch and the App's
error state stays `none` — nothing is surfaced. -/
theorem classify_api_error_empty_message_not_surfaced :
    errorMessageOf { isErrorInstance := true, isObjectWithMessage := true, message := "" }
        = "" ∧
      ((handleClassify sampleReadyState true (Except.ok "QUJD")
          (Except.error { isErrorInstance := true, isObjectWithMessage := true,
                          message := "" })).1).error ≠
        some (errorMessageOf { isErrorInstance := true, isObjectWithMessage := true,
                               message := "" }) ∧
      ((handleClassify sampleReadyState true (Except.ok "QUJD")
          (Except.error { isErrorInstance := true, isObjectWithMessage := true,
                          message := "" })).1).error = none :=
  ⟨by decide, by decide, by decide⟩

/-- C3, amended: when the vendor call throws, `classifyWasteImage` catches
the exception and returns normally with the error message derived from
the thrown error; the App surfaces that message in its error state
whenever the derived message is non-empty. -/
theorem classify_api_error_caught :
    (∀ (imageBase64 mimeType : String) (e : ThrownError),
      (classifyWasteImage true imageBase64 mimeType (Except.error e)).1 =
        { category := WasteCategory.UNKNOWN, error := some (errorMessageOf e) }) ∧
    (∀ (s : AppState) (base64Data : String) (e : ThrownError),
      classifyStarted s = true → errorMessageOf e ≠ "" →
        ((handleClassify s true (Except.ok base64Data) (Except.error e)).1).error =
          some (errorMessageOf e)) := by
  constructor
  · intro b m e
    rfl
  · intro s b e hs hne
    have hc : ∀ m, classifyWasteImage true b m (Except.error e) =
        ({ category := WasteCategory.UNKNOWN, error := some (errorMessageOf e) },
         [Effect.apiCall]) := fun m => rfl
    simp [handleClassify, hs, handleClassifyFinish, hc, jsTruthy, hne]

/-- Witness for C3 at a concrete state and a concrete non-empty error. -/
theorem classify_api_error_caught_witness :
    (classifyStarted sampleReadyState = true ∧ errorMessageOf sampleError ≠ "") ∧
      ((handleClassify sampleReadyState true (Except.ok "QUJD")
          (Except.error sampleError)).1).error = some (errorMessageOf sampleError) :=
  ⟨⟨by decide, by decide⟩,
   classify_api_error_caught.2 sampleReadyState "QUJD" sampleError (by decide) (by decide)⟩

/-- C4: a response text that neither exactly matches a label after
trimming nor contains any of the five keywords is classified Unknown. -/
theorem classify_unmatched_is_unknown (responseText : String)
    (hexact : wasteCategoryValues.find?
      (fun c => c.label == jsTrim responseText) = none)
    (hp1 : strHasSub (jsToLower (jsTrim responseText)) "plastic" = false)
    (hp2 : strHasSub (jsToLower (jsTrim responseText)) "paper" = false)
    (hp3 : strHasSub (jsToLower (jsTrim responseText)) "cardboard" = false)
    (hp4 : strHasSub (jsToLower (jsTrim responseText)) "glass" = false)
    (hp5 : strHasSub (jsToLower (jsTrim responseText)) "metal" = false)
    (imageBase64 mimeType : String) :
    ((classifyWasteImage true imageBase64 mimeType (Except.ok responseText)).1).category =
      WasteCategory.UNKNOWN := by
  have hred : (classifyWasteImage true imageBase64 mimeType (Except.ok responseText)).1 =
      normalizeClassification (jsTrim responseText) := rfl
  rw [hred]
  unfold normalizeClassification
  rw [hexact]
  simp [hp1, hp2, hp3, hp4, hp5]

/-- Witness for C4 at a concrete unmatched response text. -/
theorem classify_unmatched_is_unknown_witness :
    (wasteCategoryValues.find? (fun c => c.label == jsTrim "a banana skin") = none ∧
      strHasSub (jsToLower (jsTrim "a banana skin")) "plastic" = false) ∧
      ((classifyWasteImage true "QUJD" "image/png" (Except.ok "a banana skin")).1).category =
        WasteCategory.UNKNOWN :=
  ⟨⟨by decide, by decide⟩,
   classify_unmatched_is_unknown "a banana skin" (by decide) (by decide) (by decide)
     (by decide) (by decide) (by decide) "QUJD" "image/png"⟩

/-- C5: whenever the result of `classifyWasteImage` carries an error
message, its category is Unknown. -/
theorem classify_error_implies_unknown (apiKeyConfigured : Bool)
    (imageBase64 mimeType : String) (apiOutcome : Except ThrownError String)
    (h : ((classifyWasteImage apiKeyConfigured imageBase64 mimeType apiOutcome).1).error.isSome
      = true) :
    ((classifyWasteImage apiKeyConfigured imageBase64 mimeType apiOutcome).1).category =
      WasteCategory.UNKNOWN := by
  cases apiKeyConfigured with
  | false => rfl
  | true =>
    cases apiOutcome with
    | error e => rfl
    | ok t =>
      have hred : classifyWasteImage true imageBase64 mimeType (Except.ok t) =
          (normalizeClassification (jsTrim t), [Effect.apiCall]) := rfl
      rw [hred] at h ⊢
      rcases normalize_error_none_or_unknown (jsTrim t) with hn | hn
      · rw [hn] at h
        simp at h
      · exact hn

/-- Witness for C5 at a concrete erroring input. -/
theorem classify_error_implies_unknown_witness :
    ((classifyWasteImage false "QUJD" "image/png" (Except.ok "Plastic")).1).error.isSome
        = true ∧
      ((classifyWasteImage false "QUJD" "image/png" (Except.ok "Plastic")).1).category =
        WasteCategory.UNKNOWN :=
  ⟨by decide,
   classify_error_implies_unknown false "QUJD" "image/png" (Except.ok "Plastic") (by decide)⟩

/-- C6: the Classify button is never rendered while a request is in
flight: a started request sets the loading flag, every other handler
preserves the flag, the flag suppresses the button, and only the
completion of the awaited part clears it. -/
theorem single_inflight_request :
    (∀ s : AppState, s.isLoading = true → classifyButtonRendered s = false) ∧
    (∀ s : AppState, classifyStarted s = true → (handleClassifyStart s).isLoading = true) ∧
    (∀ (s : AppState) (file : Option FileModel),
      (handleFileChange s file).isLoading = s.isLoading) ∧
    (∀ s : AppState, (handleRemoveImage s).isLoading = s.isLoading) ∧
    (∀ (s : AppState) (apiKeyConfigured : Bool) (fr ao : Except ThrownError String),
      ((handleClassifyFinish s apiKeyConfigured fr ao).1).isLoading = false) := by
  refine ⟨?_, ?_, ?_, ?_, ?_⟩
  · intro s h
    simp [classifyButtonRendered, h]
  · intro s h
    simp only [classifyStarted, Bool.not_eq_true'] at h
    simp [handleClassifyStart, h]
  · intro s file
    cases file with
    | none => rfl
    | some f =>
      by_cases h : jsStartsWith f.type "image/" <;> simp [handleFileChange, h]
  · intro s
    rfl
  · intro s k fr ao
    cases fr with
    | error e => rfl
    | ok b =>
      simp only [handleClassifyFinish]
      split <;> rfl

/-- Witness for C6 at a concrete loading state and a concrete start. -/
theorem single_inflight_request_witness :
    classifyButtonRendered { sampleReadyState with isLoading := true } = false ∧
      (handleClassifyStart sampleReadyState).isLoading = true :=
  ⟨single_inflight_request.1 { sampleReadyState with isLoading := true } rfl,
   single_inflight_request.2.1 sampleReadyState (by decide)⟩

/-- C7: `classifyWasteImage` is deterministic: equal base64 data, MIME
type, API-key configuration and vendor-call outcome give equal results. -/
theorem classify_deterministic (k1 k2 : Bool) (b1 b2 m1 m2 : String)
    (ao1 ao2 : Except ThrownError String)
    (hk : k1 = k2) (hb : b1 = b2) (hm : m1 = m2) (hao : ao1 = ao2) :
    classifyWasteImage k1 b1 m1 ao1 = classifyWasteImage k2 b2 m2 ao2 := by
  subst hk
  subst hb
  subst hm
  subst hao
  rfl

/-- Witness for C7 at concrete equal inputs. -/
theorem classify_deterministic_witness :
    classifyWasteImage true "QUJD" "image/png" (Except.ok "Paper") =
      classifyWasteImage true "QUJD" "image/png" (Except.ok "Paper") :=
  classify_deterministic true true "QUJD" "QUJD" "image/png" "image/png"
    (Except.ok "Paper") (Except.ok "Paper") rfl rfl rfl rfl

/-- C8: a started classification attempt performs exactly one file read
and at most one vendor API call. -/
theorem one_file_read_at_most_one_api_call (s : AppState) (apiKeyConfigured : Bool)
    (fr ao : Except ThrownError String) (hs : classifyStarted s = true) :
    ((handleClassify s apiKeyConfigured fr ao).2).count Effect.fileRead = 1 ∧
      ((handleClassify s apiKeyConfigured fr ao).2).count Effect.apiCall ≤ 1 := by
  have hrun : handleClassify s apiKeyConfigured fr ao =
      handleClassifyFinish (handleClassifyStart s) apiKeyConfigured fr ao := by
    simp [handleClassify, hs]
  rw [hrun, finish_effects]
  cases fr with
  | error e =>
    dsimp only
    exact ⟨by decide, by decide⟩
  | ok b =>
    dsimp only
    rw [classify_effects]
    cases apiKeyConfigured with
    | false => exact ⟨by decide, by decide⟩
    | true => exact ⟨by decide, by decide⟩

/-- Witness for C8 at a concrete ready state. -/
theorem one_file_read_at_most_one_api_call_witness :
    classifyStarted sampleReadyState = true ∧
      ((handleClassify sampleReadyState true (Except.ok "QUJD")
          (Except.ok "Paper")).2).count Effect.fileRead = 1 ∧
      ((handleClassify sampleReadyState true (Except.ok "QUJD")
          (Except.ok "Paper")).2).count Effect.apiCall ≤ 1 :=
  ⟨by decide,
   one_file_read_at_most_one_api_call sampleReadyState true (Except.ok "QUJD")
     (Except.ok "Paper") (by decide)⟩

/-- C9: without a configured API key, `classifyWasteImage` returns Unknown
with the message "API Key not configured." and performs no effect. -/
theorem classify_no_key (imageBase64 mimeType : String)
    (apiOutcome : Except ThrownError String) :
    classifyWasteImage false imageBase64 mimeType apiOutcome =
      ({ category := WasteCategory.UNKNOWN, error := some "API Key not configured." }, []) :=
  rfl

/-- C10: a file whose MIME type does not start with image/ sets the
validation error and clears the selected file, the preview and the stored
MIME type. -/
theorem fileChange_rejects_non_image (s : AppState) (f : FileModel)
    (h : jsStartsWith f.type "image/" = false) :
    (handleFileChange s (some f)).error =
        some "Please upload a valid image file (PNG, JPG, GIF, WEBP, etc.)." ∧
      (handleFileChange s (some f)).selectedFile = none ∧
      (handleFileChange s (some f)).imageBase64Preview = none ∧
      (handleFileChange s (some f)).mimeType = none := by
  simp [handleFileChange, h]

/-- Witness for C10 at a concrete non-image file. -/
theorem fileChange_rejects_non_image_witness :
    jsStartsWith "text/plain" "image/" = false ∧
      (handleFileChange sampleReadyState (some { type := "text/plain", dataUrl := "d" })).selectedFile
        = none :=
  ⟨by decide,
   (fileChange_rejects_non_image sampleReadyState { type := "text/plain", dataUrl := "d" }
     (by decide)).2.1⟩

end AIWasteSorter
